import Mathlib

/-!
# tokenTalk — verification of the alert-engine core and the client helpers

This file gives a shallow embedding of the tokenTalk repository's
behaviour and proves the specification's claims about it.

Two groups of definitions:

* The alert-engine core (`AlertStore`, `AlertEvaluator`, `NotificationDispatcher`,
  `AlertEngine`).  The repository ships only its documentation (the backend
  Python sources are not present), so these are modelled from the spec, as
  each doc comment notes.

* The React client helpers that are present in the sources
  (`getFilteredAndSortedData` and pagination from `Assets.jsx`, the
  `useFetch` hook, and the `GetNotify` modal's `sendMessage`), embedded
  directly from the JavaScript.
-/

namespace TokenTalk

/-! ## Data model (spec §3) -/

/-- Modelled from the spec: alert condition enum {ABOVE, BELOW} (§3). -/
inductive Condition where
  | ABOVE
  | BELOW
deriving DecidableEq, Repr

/-- Modelled from the spec: alert status enum {ACTIVE, TRIGGERED, PAUSED, DELETED} (§3). -/
inductive Status where
  | ACTIVE
  | TRIGGERED
  | PAUSED
  | DELETED
deriving DecidableEq, Repr

/-- Modelled from the spec: the Alert record of §3.  `triggeredAt` is a
nullable timestamp, `channels` a list of channel identifiers.  The backend
sources are absent from the repository, so the record follows the spec's
data model. -/
structure Alert where
  id : Nat
  userId : Nat
  symbol : String
  condition : Condition
  targetPrice : ℚ
  status : Status
  createdAt : Nat
  triggeredAt : Option Nat
  channels : List String
deriving DecidableEq, Repr

/-- Modelled from the spec: PriceSample of §3 — `symbol`, positive `value`,
`timestamp`, `provider`. -/
structure PriceSample where
  symbol : String
  value : ℚ
  timestamp : Nat
  provider : String
deriving DecidableEq, Repr

/-- Modelled from the spec: notification delivery status enum
{PENDING, SENT, FAILED} (§3). -/
inductive NotifStatus where
  | PENDING
  | SENT
  | FAILED
deriving DecidableEq, Repr

/-- Modelled from the spec: NotificationRecord of §3 — `alertId`, `channel`,
`status`, `sentAt`. -/
structure NotificationRecord where
  alertId : Nat
  channel : String
  status : NotifStatus
  sentAt : Nat
deriving DecidableEq, Repr

/-- Modelled from the spec: a price mapping Symbol → PriceSample, as returned
by `PriceFeed.fetch` (§4.1); symbols the feed does not know are absent. -/
def Prices : Type := String → Option PriceSample

/-! ## AlertEvaluator (spec §4.3) -/

/-- Modelled from the spec: the trigger rule of §4.3.  An alert qualifies iff
a price sample exists for its symbol and (`condition == BELOW` and
`value ≤ targetPrice`) or (`condition == ABOVE` and `value ≥ targetPrice`);
both comparisons are inclusive.  A missing sample never qualifies. -/
def qualifies (prices : Prices) (a : Alert) : Bool :=
  match prices a.symbol with
  | none => false
  | some p =>
    match a.condition with
    | Condition.BELOW => decide (p.value ≤ a.targetPrice)
    | Condition.ABOVE => decide (p.value ≥ a.targetPrice)

/-- Modelled from the spec: `AlertEvaluator.evaluate` (§4.3), a pure function
from the price mapping and the alert sequence to the subset of alerts
satisfying their condition. -/
def evaluate (prices : Prices) (alerts : List Alert) : List Alert :=
  alerts.filter (qualifies prices)

/-! ## AlertStore (spec §4.2) -/

/-- Modelled from the spec: the error taxonomy relevant to the store (§4.2,
§7): `InvalidTransition` when a status change is attempted from the wrong
prior state, `NotFound` when the identifier resolves to no alert, and
`InvalidRequest` when a creation request violates an invariant (§7). -/
inductive StoreError where
  | InvalidTransition
  | NotFound
  | InvalidRequest
deriving DecidableEq, Repr

/-- Modelled from the spec: the AlertStore, a durable collection of alert
records keyed by identifier (§4.2); alerts are never physically removed
(DELETED is a terminal status, §3). -/
abbrev AlertStore : Type := List Alert

/-- Modelled from the spec: look an alert up by its identifier. -/
def AlertStore.find (s : AlertStore) (id : Nat) : Option Alert :=
  List.find? (fun a => a.id == id) s

/-- Modelled from the spec: replace the record keyed `id` by `a'`
(identifier-keyed update; ids are unique, §3). -/
def AlertStore.set (s : AlertStore) (id : Nat) (a' : Alert) : AlertStore :=
  List.map (fun a => if a.id == id then a' else a) s

/-- Modelled from the spec: `listActive` (§4.2) — the alerts whose status is
ACTIVE, order unspecified. -/
def AlertStore.listActive (s : AlertStore) : List Alert :=
  List.filter (fun a => a.status == Status.ACTIVE) s

/-- The record `markTriggered` writes for alert `a` at time `now` (§4.2):
status TRIGGERED, `triggeredAt` set, every other field kept. -/
def triggeredAlert (a : Alert) (now : Nat) : Alert :=
  { a with status := Status.TRIGGERED, triggeredAt := some now }

/-- Modelled from the spec: `markTriggered(alertId)` (§4.2) — atomic
conditional transition ACTIVE → TRIGGERED setting `triggeredAt`; fails with
`InvalidTransition` when the alert is not currently ACTIVE, leaving the
store untouched. -/
def AlertStore.markTriggered (s : AlertStore) (id : Nat) (now : Nat) :
    Except StoreError (Alert × AlertStore) :=
  match s.find id with
  | none => Except.error StoreError.NotFound
  | some a =>
    if a.status = Status.ACTIVE then
      Except.ok (triggeredAlert a now, s.set id (triggeredAlert a now))
    else
      Except.error StoreError.InvalidTransition

/-- Modelled from the spec: `create` (§4.2) — a new alert enters the store
ACTIVE with a null `triggeredAt`; a non-positive target price is rejected
synchronously (§7: requests violating `targetPrice > 0` are rejected). -/
def AlertStore.create (s : AlertStore) (id userId : Nat) (symbol : String)
    (condition : Condition) (targetPrice : ℚ) (channels : List String)
    (now : Nat) : Except StoreError AlertStore :=
  if targetPrice ≤ 0 then Except.error StoreError.InvalidRequest
  else
    Except.ok (s ++ [{ id := id, userId := userId, symbol := symbol,
                       condition := condition, targetPrice := targetPrice,
                       status := Status.ACTIVE, createdAt := now,
                       triggeredAt := none, channels := channels }])

/-- Modelled from the spec: a user-initiated update request.  Users drive
only the ACTIVE ⇄ PAUSED transitions and reactivation (§4.2 state machine);
TRIGGERED and DELETED are never requested directly, so the requested status
is one of ACTIVE, PAUSED. -/
structure UpdateRequest where
  targetPrice : ℚ
  condition : Condition
  channels : List String
  active : Bool
deriving DecidableEq, Repr

/-- Modelled from the spec: the status an update request asks for. -/
def UpdateRequest.status (r : UpdateRequest) : Status :=
  if r.active then Status.ACTIVE else Status.PAUSED

/-- The record `update` writes (§4.2): the request's fields applied to `a`,
the status set to `st`, and `triggeredAt` cleared. -/
def updatedAlert (a : Alert) (r : UpdateRequest) (st : Status) : Alert :=
  { a with targetPrice := r.targetPrice, condition := r.condition,
           channels := r.channels, status := st, triggeredAt := none }

/-- Modelled from the spec: `update` (§4.2) — rejected with
`InvalidTransition` on a TRIGGERED or DELETED alert, except reactivation
(TRIGGERED → ACTIVE), which clears `triggeredAt`; on an ACTIVE or PAUSED
alert the request's fields and status are applied (PAUSED → ACTIVE also
leaves `triggeredAt` cleared, matching the reactivation clause). -/
def AlertStore.update (s : AlertStore) (id : Nat) (r : UpdateRequest) :
    Except StoreError AlertStore :=
  match s.find id with
  | none => Except.error StoreError.NotFound
  | some a =>
    match a.status with
    | Status.DELETED => Except.error StoreError.InvalidTransition
    | Status.TRIGGERED =>
      if r.active then Except.ok (s.set id (updatedAlert a r Status.ACTIVE))
      else Except.error StoreError.InvalidTransition
    | _ => Except.ok (s.set id (updatedAlert a r r.status))

/-- The record `delete` writes (§4.2): status DELETED, `triggeredAt`
cleared (see `AlertStore.delete`). -/
def deletedAlert (a : Alert) : Alert :=
  { a with status := Status.DELETED, triggeredAt := none }

/-- Modelled from the spec: `delete(alertId)` (§4.2) — sets status DELETED
(terminal; re-deleting a DELETED alert is not a transition of the §4.2 state
machine and is rejected).  To maintain the §3 invariant that `triggeredAt`
is non-null iff `status == TRIGGERED`, deleting clears `triggeredAt`. -/
def AlertStore.delete (s : AlertStore) (id : Nat) :
    Except StoreError AlertStore :=
  match s.find id with
  | none => Except.error StoreError.NotFound
  | some a =>
    if a.status = Status.DELETED then Except.error StoreError.InvalidTransition
    else Except.ok (s.set id (deletedAlert a))

/-! ## NotificationDispatcher (spec §4.4) -/

/-- Modelled from the spec: the trigger context handed to the dispatcher
(§4.4): symbol, observed price, condition and target. -/
structure TriggerContext where
  symbol : String
  price : ℚ
  condition : Condition
  targetPrice : ℚ
deriving DecidableEq, Repr

/-- Modelled from the spec: a notification channel capability —
`deliver(payload) -> success | failure` (§6); the dispatcher only observes
whether a given channel's single delivery attempt succeeds. -/
def Deliver : Type := String → Bool

/-- Modelled from the spec: `NotificationDispatcher.send` (§4.4) — one
record per channel in `alert.channels`, each channel attempted exactly once
and independently, recorded as SENT or FAILED; no retry inside the call. -/
def send (deliver : Deliver) (a : Alert) (_ctx : TriggerContext) (now : Nat) :
    List NotificationRecord :=
  a.channels.map (fun ch =>
    { alertId := a.id, channel := ch,
      status := if deliver ch then NotifStatus.SENT else NotifStatus.FAILED,
      sentAt := now })

/-! ## AlertEngine (spec §4.5) -/

/-- Modelled from the spec: the outcome of `PriceFeed.fetch` for one tick
(§4.1): either the price mapping, or the transient `FeedUnavailable`. -/
inductive FeedResult where
  | ok (prices : Prices)
  | unavailable

/-- Modelled from the spec: the trigger context the engine builds for a
triggered alert from the prices it evaluated (§4.5 step 5). -/
def contextFor (prices : Prices) (a : Alert) : TriggerContext :=
  { symbol := a.symbol,
    price := (match prices a.symbol with
              | some p => p.value
              | none => 0),
    condition := a.condition, targetPrice := a.targetPrice }

/-- Modelled from the spec: §4.5 step 5 — for each triggered alert attempt
`markTriggered`; on `InvalidTransition` (or any store rejection) skip the
alert silently, otherwise dispatch its notifications. -/
def processTriggered (prices : Prices) (deliver : Deliver) (now : Nat) :
    List Alert → AlertStore → AlertStore × List NotificationRecord
  | [], s => (s, [])
  | a :: rest, s =>
    match s.markTriggered a.id now with
    | Except.error _ => processTriggered prices deliver now rest s
    | Except.ok (a', s') =>
      let recs := send deliver a' (contextFor prices a) now
      let (s'', more) := processTriggered prices deliver now rest s'
      (s'', recs ++ more)

/-- Modelled from the spec: one engine tick (§4.5).  On `FeedUnavailable`
the tick is skipped entirely: the store is unchanged and no notification is
sent; the error never escapes (the function is total).  Otherwise the
active alerts are evaluated and each triggered one is processed. -/
def tick (feed : FeedResult) (s : AlertStore) (deliver : Deliver)
    (now : Nat) : AlertStore × List NotificationRecord :=
  match feed with
  | FeedResult.unavailable => (s, [])
  | FeedResult.ok prices =>
    processTriggered prices deliver now (evaluate prices s.listActive) s

/-! ## Client: `Assets.jsx` — `getFilteredAndSortedData` and pagination

The dashboard's asset table is computed client-side from the JSON object
fetched from the price API.  JavaScript strings are modelled as `List Char`,
JavaScript numbers as `ℚ`, and the fetched object as an association list in
key order (`Object.keys` enumeration order). -/

/-- `String.prototype.toLowerCase` (sufficient for the ASCII symbols and
keys the price API serves). -/
def jsToLower (s : List Char) : List Char := s.map Char.toLower

/-- `String.prototype.includes`: `needle` occurs contiguously in `hay`. -/
def containsSub (hay needle : List Char) : Bool :=
  (List.range (hay.length + 1)).any (fun i => needle.isPrefixOf (hay.drop i))

/-- One value of the fetched JSON object: `data[key]` has fields `symbol`
(possibly absent, hence `Option`), numeric `value`, and `provider`. -/
structure CryptoEntry where
  symbol : Option (List Char)
  value : ℚ
  provider : List Char
deriving DecidableEq, Repr

/-- The fetched JSON object, as its key/value pairs in `Object.keys` order. -/
abbrev CryptoData : Type := List (List Char × CryptoEntry)

/-- `sortBy` select values in `Assets.jsx`: `'price'` or `'symbol'` (the
switch's `default` branch computes the same keys as `'symbol'`). -/
inductive SortField where
  | price
  | symbol
deriving DecidableEq, Repr

/-- `sortOrder` in `Assets.jsx`: `'asc'` or `'desc'`. -/
inductive SortOrder where
  | asc
  | desc
deriving DecidableEq, Repr

/-- The filter controls of `Assets.jsx`: search term, price range (a `none`
bound models the empty input string, which is falsy and imposes no
restriction), sort field and order. -/
structure FilterSettings where
  searchTerm : List Char
  min : Option ℚ
  max : Option ℚ
  sortBy : SortField
  sortOrder : SortOrder

/-- `matchesSearch` from `Assets.jsx` line 31:
`crypto.symbol?.toLowerCase().includes(searchTerm.toLowerCase()) ||
key.toLowerCase().includes(searchTerm.toLowerCase())`; the optional chain on
an absent `symbol` yields `undefined`, which is falsy. -/
def matchesSearch (key : List Char) (e : CryptoEntry) (term : List Char) : Bool :=
  (match e.symbol with
   | some s => containsSub (jsToLower s) (jsToLower term)
   | none => false) ||
  containsSub (jsToLower key) (jsToLower term)

/-- `matchesPrice` from `Assets.jsx` line 34:
`(!priceRange.min || crypto.value >= parseFloat(priceRange.min)) &&
(!priceRange.max || crypto.value <= parseFloat(priceRange.max))`. -/
def matchesPrice (e : CryptoEntry) (min max : Option ℚ) : Bool :=
  (match min with
   | none => true
   | some m => decide (m ≤ e.value)) &&
  (match max with
   | none => true
   | some m => decide (e.value ≤ m))

/-- The numeric sort key of `Assets.jsx` line 50:
`parseFloat(data[a].value) || 0` — the identity on an already numeric
`value` (`0 || 0` is `0`). -/
def sortKeyNum (p : List Char × CryptoEntry) : ℚ := p.2.value

/-- The string sort key of `Assets.jsx` line 46: `data[a].symbol || a` —
the key when `symbol` is absent or the empty string (both falsy). -/
def sortKeyStr (p : List Char × CryptoEntry) : List Char :=
  match p.2.symbol with
  | some s => if s = [] then p.1 else s
  | none => p.1

/-- Lexicographic `≤` on character lists, the model of a non-positive
`localeCompare` result (default locale, code-point order). -/
def lexLe : List Char → List Char → Bool
  | [], _ => true
  | _ :: _, [] => false
  | a :: as, b :: bs => if a = b then lexLe as bs else decide (a < b)

/-- The comparator the `filtered.sort((a, b) => ...)` call of `Assets.jsx`
lines 41–65 orders by, phrased as a boolean `le`: `le p q` iff the
comparator applied to `(p, q)` is `≤ 0`. -/
def cmpLe (sortBy : SortField) (order : SortOrder)
    (p q : List Char × CryptoEntry) : Bool :=
  match sortBy, order with
  | SortField.price, SortOrder.asc => decide (sortKeyNum p ≤ sortKeyNum q)
  | SortField.price, SortOrder.desc => decide (sortKeyNum q ≤ sortKeyNum p)
  | SortField.symbol, SortOrder.asc => lexLe (sortKeyStr p) (sortKeyStr q)
  | SortField.symbol, SortOrder.desc => lexLe (sortKeyStr q) (sortKeyStr p)

/-- The filter stage of `getFilteredAndSortedData` (`Assets.jsx` lines
29–38): the entries whose symbol or key matches the search term and whose
value satisfies the price range. -/
def filteredPairs (d : CryptoData) (f : FilterSettings) : CryptoData :=
  d.filter (fun p => matchesSearch p.1 p.2 f.searchTerm &&
                     matchesPrice p.2 f.min f.max)

/-- The sort stage (`Assets.jsx` lines 41–65): a stable sort of the filtered
entries by the selected comparator, as performed by `Array.prototype.sort`. -/
def sortedPairs (d : CryptoData) (f : FilterSettings) : CryptoData :=
  (filteredPairs d f).mergeSort (cmpLe f.sortBy f.sortOrder)

/-- `getFilteredAndSortedData` (`Assets.jsx` lines 26–68): the list of keys,
filtered and sorted (the JavaScript function filters and sorts
`Object.keys(data)`; each key's comparisons read `data[key]`, carried here
as the pair's second component). -/
def getFilteredAndSortedData (d : CryptoData) (f : FilterSettings) :
    List (List Char) :=
  (sortedPairs d f).map Prod.fst

/-- `Array.prototype.slice(start, stop)`. -/
def jsSlice (l : List (List Char)) (start stop : Nat) : List (List Char) :=
  (l.drop start).take (stop - start)

/-- The pagination of `Assets.jsx` lines 72–75: `startIndex =
(currentPage - 1) * itemsPerPage`, `endIndex = startIndex + itemsPerPage`,
`currentData = filteredData.slice(startIndex, endIndex)`. -/
def currentData (filteredData : List (List Char))
    (currentPage itemsPerPage : Nat) : List (List Char) :=
  jsSlice filteredData ((currentPage - 1) * itemsPerPage)
    ((currentPage - 1) * itemsPerPage + itemsPerPage)

/-! ## Client: `useFetch.jsx` -/

/-- The state of the `useFetch` hook: `data` (initially `null`), `error`,
`loading`. -/
structure FetchState (D : Type) where
  data : Option D
  error : Bool
  loading : Bool
deriving DecidableEq, Repr

/-- The hook's initial state: `useState(null)`, `useState(false)`,
`useState(false)`. -/
def initialFetchState (D : Type) : FetchState D :=
  { data := none, error := false, loading := false }

/-- How one `callData` invocation resolves: the `fetch` or `response.json()`
call throws, or the response arrives with `ok == false` (which `callData`
turns into a thrown `Error`), or the body parses to `body`. -/
inductive FetchOutcome (D : Type) where
  | thrown
  | badStatus
  | success (body : D)

/-- `callData` from `useFetch.jsx` lines 8–26 as a state transition:
`setLoading(true); setError(false);` then
`try { fetch; if (!ok) throw; setData(json) } catch { setError(true) }
finally { setLoading(false) }`. -/
def callData {D : Type} (st : FetchState D) (outcome : FetchOutcome D) :
    FetchState D :=
  match outcome with
  | FetchOutcome.thrown => { data := st.data, error := true, loading := false }
  | FetchOutcome.badStatus => { data := st.data, error := true, loading := false }
  | FetchOutcome.success body => { data := some body, error := false, loading := false }

/-! ## Client: `GetNotify` — `sendMessage` -/

/-- The whitespace class `String.prototype.trim` strips (the JavaScript set
restricted to the characters typable in the modal's textarea). -/
def jsWhitespace (c : Char) : Bool :=
  c = ' ' || c = '\t' || c = '\n' || c = '\r'

/-- `String.prototype.trim`. -/
def jsTrim (s : List Char) : List Char :=
  ((s.dropWhile jsWhitespace).reverse.dropWhile jsWhitespace).reverse

/-- The modal's `responseState`: `{ loading, error, success }`. -/
structure ResponseState where
  loading : Bool
  error : Option (List Char)
  success : Bool
deriving DecidableEq, Repr

/-- How the POST to `/api/chat/message` resolves when it is issued. -/
inductive RequestOutcome where
  | failure (msg : List Char)
  | ok

/-- The guard of `sendMessage` (`Assets.jsx` concatenation, GetNotify
component): `if (!userDescription.trim() || userDescription.trim().length
<= 3) return;` — an empty trimmed string is falsy. -/
def sendMessageGuard (desc : List Char) : Bool :=
  (jsTrim desc).isEmpty || decide ((jsTrim desc).length ≤ 3)

/-- `sendMessage`: returns whether a POST request was issued, and the final
`responseState`.  When the guard fires the function returns at once: no
request, state untouched.  Otherwise the request runs and the state records
its outcome (`success` on 2xx, the error message otherwise). -/
def sendMessage (desc : List Char) (st : ResponseState)
    (outcome : RequestOutcome) : Bool × ResponseState :=
  if sendMessageGuard desc then (false, st)
  else
    match outcome with
    | RequestOutcome.ok =>
      (true, { loading := false, error := none, success := true })
    | RequestOutcome.failure msg =>
      (true, { loading := false, error := some msg, success := false })

/-- The submit button's `disabled` expression (GetNotify component):
`!userDescription.trim() || isSubmitting ||
userDescription.trim().length <= 3`. -/
def notifyButtonDisabled (desc : List Char) (isSubmitting : Bool) : Bool :=
  (jsTrim desc).isEmpty || isSubmitting || decide ((jsTrim desc).length ≤ 3)

/-! ## Concrete fixtures (used by witnesses) -/

/-- The spec's §8 scenario price mapping: BTC at 29950, nothing else. -/
def btcPrices : Prices := fun s =>
  if s = "BTC" then
    some { symbol := "BTC", value := 29950, timestamp := 0, provider := "redstone" }
  else none

/-- The spec's §8 scenario alert: BTC BELOW 30000, ACTIVE. -/
def btcAlert : Alert :=
  { id := 1, userId := 7, symbol := "BTC", condition := Condition.BELOW,
    targetPrice := 30000, status := Status.ACTIVE, createdAt := 0,
    triggeredAt := none, channels := ["websocket", "email"] }

/-- An ACTIVE alert on a symbol `btcPrices` has no sample for. -/
def ethAlert : Alert :=
  { id := 2, userId := 7, symbol := "ETH", condition := Condition.ABOVE,
    targetPrice := 4000, status := Status.ACTIVE, createdAt := 0,
    triggeredAt := none, channels := ["email"] }

/-- The §3 per-alert invariant: `triggeredAt` is non-null iff the status is
TRIGGERED. -/
abbrev alertInv (a : Alert) : Prop :=
  a.triggeredAt ≠ none ↔ a.status = Status.TRIGGERED

/-- The store-wide form of the §3 invariant. -/
abbrev storeInv (s : AlertStore) : Prop := ∀ a ∈ s, alertInv a

/-- The §8 scenario alert after the engine marks it at time 5. -/
def btcTriggered : Alert := triggeredAlert btcAlert 5

/-- A channel capability for the §8 channel-isolation scenario: the
`email` channel delivers, every other channel (in particular `websocket`)
fails. -/
def failWebsocket : Deliver := fun ch => ch == "email"

/-- The trigger context of the §8 scenario. -/
def btcContext : TriggerContext :=
  { symbol := "BTC", price := 29950, condition := Condition.BELOW,
    targetPrice := 30000 }

/-- A whitespace-only modal input. -/
def shortDesc : List Char := [' ', ' ', ' ']

/-- The modal's initial `responseState`. -/
def idleResponse : ResponseState :=
  { loading := false, error := none, success := false }

/-! ## Theorems -/

/-- An alert found under `id` carries that identifier. -/
theorem find_some_id (s : AlertStore) (id : Nat) (a : Alert)
    (h : s.find id = some a) : a.id = id := by
  unfold AlertStore.find at h
  have := List.find?_some h
  simpa using this

/-- Replacing the record keyed `id` is visible to a subsequent lookup,
provided some record with that key was present. -/
theorem find_set_self (id : Nat) (b : Alert) (hid : b.id = id) :
    ∀ (s : AlertStore) (a : Alert), s.find id = some a →
      (s.set id b).find id = some b := by
  intro s
  induction s with
  | nil =>
    intro a h
    exact absurd h (by simp [AlertStore.find])
  | cons c t ih =>
    intro a h
    unfold AlertStore.find at h ⊢
    unfold AlertStore.set
    simp only [List.map_cons]
    by_cases hc : (c.id == id) = true
    · rw [if_pos hc]
      have hb : (b.id == id) = true := by simp [hid]
      exact List.find?_cons_of_pos _ hb
    · rw [if_neg hc]
      rw [List.find?_cons_of_neg (p := fun x => x.id == id) t hc] at h
      refine Eq.trans (List.find?_cons_of_neg _ hc) ?_
      exact ih a h

/-- `markTriggered` on any non-ACTIVE alert fails with
`InvalidTransition`. -/
theorem markTriggered_not_active (s : AlertStore) (id now : Nat) (a : Alert)
    (hfind : s.find id = some a) (hne : a.status ≠ Status.ACTIVE) :
    s.markTriggered id now = Except.error StoreError.InvalidTransition := by
  simp [AlertStore.markTriggered, hfind, hne]

/-- A keyed replacement by an invariant-satisfying record preserves the
store invariant. -/
theorem storeInv_set (s : AlertStore) (id : Nat) (b : Alert)
    (hs : storeInv s) (hb : alertInv b) : storeInv (s.set id b) := by
  intro c hc
  unfold AlertStore.set at hc
  rcases List.mem_map.mp hc with ⟨d, hd, hdc⟩
  by_cases h : (d.id == id) = true
  · rw [if_pos h] at hdc
    rw [← hdc]
    exact hb
  · rw [if_neg h] at hdc
    rw [← hdc]
    exact hs d hd

/-- C1: `markTriggered` succeeds at most once per ACTIVE period.  On an
ACTIVE alert it transitions the record to TRIGGERED in one conditional
step, setting `triggeredAt` and changing nothing else; on any other status
it fails with `InvalidTransition` and returns no new store (the alert is
untouched).  Hence two successive calls on the same ACTIVE alert yield one
success and then one `InvalidTransition`, and `triggeredAt` is set exactly
once. -/
theorem markTriggered_at_most_once (s : AlertStore) (id now now2 : Nat)
    (a : Alert) (hfind : s.find id = some a) :
    (a.status = Status.ACTIVE →
      ∃ a2 s2, s.markTriggered id now = Except.ok (a2, s2) ∧
        a2.status = Status.TRIGGERED ∧ a2.triggeredAt = some now ∧
        a2.id = a.id ∧ a2.symbol = a.symbol ∧
        a2.condition = a.condition ∧ a2.targetPrice = a.targetPrice ∧
        a2.channels = a.channels ∧ a2.createdAt = a.createdAt ∧
        a2.userId = a.userId ∧ s2.find id = some a2 ∧
        s2.markTriggered id now2 = Except.error StoreError.InvalidTransition) ∧
    (a.status ≠ Status.ACTIVE →
      s.markTriggered id now = Except.error StoreError.InvalidTransition) := by
  have hid : a.id = id := find_some_id s id a hfind
  constructor
  · intro hact
    have hfound : (s.set id (triggeredAlert a now)).find id =
        some (triggeredAlert a now) :=
      find_set_self id (triggeredAlert a now) hid s a hfind
    refine ⟨triggeredAlert a now, s.set id (triggeredAlert a now),
      ?_, rfl, rfl, rfl, rfl, rfl, rfl, rfl, rfl, rfl, hfound, ?_⟩
    · simp [AlertStore.markTriggered, hfind, hact]
    · exact markTriggered_not_active _ id now2 (triggeredAlert a now) hfound
        (by simp [triggeredAlert])
  · intro hne
    simp [AlertStore.markTriggered, hfind, hne]

/-- C1 witness: on the ACTIVE §8 alert, triggering at time 5 succeeds once
and a second call fails with `InvalidTransition`. -/
theorem markTriggered_at_most_once_witness :
    ∃ a2 s2, AlertStore.markTriggered [btcAlert] 1 5 = Except.ok (a2, s2) ∧
      a2.status = Status.TRIGGERED ∧ a2.triggeredAt = some 5 ∧
      s2.markTriggered 1 6 = Except.error StoreError.InvalidTransition := by
  obtain ⟨a2, s2, h1, h2, h3, _, _, _, _, _, _, _, _, h4⟩ :=
    (markTriggered_at_most_once [btcAlert] 1 5 6 btcAlert rfl).1 rfl
  exact ⟨a2, s2, h1, h2, h3, h4⟩

/-- C5: every store operation preserves the §3 invariant that `triggeredAt`
is non-null iff the status is TRIGGERED; `markTriggered` sets `triggeredAt`
exactly when it sets the status to TRIGGERED, and a reactivating update
(requested status ACTIVE) leaves the alert ACTIVE with `triggeredAt`
cleared. -/
theorem store_ops_preserve_inv (s : AlertStore) (hs : storeInv s) :
    (∀ id userId symbol condition targetPrice channels now s2,
      s.create id userId symbol condition targetPrice channels now =
        Except.ok s2 → storeInv s2) ∧
    (∀ id r s2, s.update id r = Except.ok s2 → storeInv s2) ∧
    (∀ id s2, s.delete id = Except.ok s2 → storeInv s2) ∧
    (∀ id now a2 s2, s.markTriggered id now = Except.ok (a2, s2) →
      storeInv s2 ∧ a2.status = Status.TRIGGERED ∧
      a2.triggeredAt = some now) ∧
    (∀ id r s2 a, s.find id = some a → r.active = true →
      s.update id r = Except.ok s2 →
      ∃ b, s2.find id = some b ∧ b.status = Status.ACTIVE ∧
        b.triggeredAt = none) := by
  refine ⟨?_, ?_, ?_, ?_, ?_⟩
  · intro id userId symbol condition targetPrice channels now s2 h
    unfold AlertStore.create at h
    split at h
    · exact absurd h (by simp)
    · simp only [Except.ok.injEq] at h
      subst h
      intro c hc
      rcases List.mem_append.mp hc with hold | hnew
      · exact hs c hold
      · rw [List.mem_singleton.mp hnew]
        simp [alertInv]
  · intro id r s2 h
    unfold AlertStore.update at h
    split at h
    · exact absurd h (by simp)
    · split at h
      · exact absurd h (by simp)
      · split at h
        · simp only [Except.ok.injEq] at h
          subst h
          exact storeInv_set s id _ hs (by simp [alertInv, updatedAlert])
        · exact absurd h (by simp)
      · simp only [Except.ok.injEq] at h
        subst h
        refine storeInv_set s id _ hs ?_
        cases hr : r.active <;>
          simp [alertInv, UpdateRequest.status, hr, updatedAlert]
  · intro id s2 h
    unfold AlertStore.delete at h
    split at h
    · exact absurd h (by simp)
    · split at h
      · exact absurd h (by simp)
      · simp only [Except.ok.injEq] at h
        subst h
        exact storeInv_set s id _ hs (by simp [alertInv, deletedAlert])
  · intro id now a2 s2 h
    unfold AlertStore.markTriggered at h
    split at h
    · exact absurd h (by simp)
    · split at h
      · simp only [Except.ok.injEq, Prod.mk.injEq] at h
        obtain ⟨ha2, hs2⟩ := h
        subst ha2
        subst hs2
        exact ⟨storeInv_set s id _ hs (by simp [alertInv, triggeredAlert]),
          rfl, rfl⟩
      · exact absurd h (by simp)
  · intro id r s2 a hfind hr h
    unfold AlertStore.update at h
    split at h
    · exact absurd h (by simp)
    · rename_i b heq
      have hid : b.id = id := find_some_id s id b heq
      split at h
      · exact absurd h (by simp)
      · rw [if_pos hr] at h
        simp only [Except.ok.injEq] at h
        subst h
        exact ⟨updatedAlert b r Status.ACTIVE,
          find_set_self id (updatedAlert b r Status.ACTIVE) hid s b heq,
          rfl, rfl⟩
      · simp only [Except.ok.injEq] at h
        subst h
        refine ⟨updatedAlert b r r.status,
          find_set_self id (updatedAlert b r r.status) hid s b heq, ?_, rfl⟩
        simp [updatedAlert, UpdateRequest.status, hr]

/-- C5 witness: marking the ACTIVE §8 alert at time 5 yields a store that
still satisfies the invariant, with `triggeredAt` set alongside the
TRIGGERED status. -/
theorem store_ops_preserve_inv_witness :
    storeInv [btcTriggered] ∧ btcTriggered.status = Status.TRIGGERED ∧
      btcTriggered.triggeredAt = some 5 :=
  (store_ops_preserve_inv [btcAlert] (by decide)).2.2.2.1 1 5 btcTriggered
    [btcTriggered] rfl

/-- The §4.3 trigger rule, as a characterisation of `qualifies`. -/
theorem qualifies_iff (prices : Prices) (a : Alert) :
    qualifies prices a = true ↔
      ∃ p, prices a.symbol = some p ∧
        ((a.condition = Condition.BELOW ∧ p.value ≤ a.targetPrice) ∨
         (a.condition = Condition.ABOVE ∧ a.targetPrice ≤ p.value)) := by
  unfold qualifies
  cases hp : prices a.symbol with
  | none => simp [hp]
  | some p => cases hc : a.condition <;> simp [hp, hc, ge_iff_le]

/-- A missing price sample never qualifies. -/
theorem qualifies_of_no_sample (prices : Prices) (a : Alert)
    (hnone : prices a.symbol = none) : qualifies prices a = false := by
  unfold qualifies
  rw [hnone]

/-- C2: an alert given to `AlertEvaluator.evaluate` is in the returned
triggered set iff a price sample exists for its symbol and either
(BELOW and value ≤ targetPrice) or (ABOVE and value ≥ targetPrice); in
particular a sample exactly equal to the target triggers for both
conditions (inclusive threshold). -/
theorem evaluate_trigger_rule (prices : Prices) (alerts : List Alert)
    (a : Alert) (ha : a ∈ alerts) :
    (a ∈ evaluate prices alerts ↔
      ∃ p, prices a.symbol = some p ∧
        ((a.condition = Condition.BELOW ∧ p.value ≤ a.targetPrice) ∨
         (a.condition = Condition.ABOVE ∧ a.targetPrice ≤ p.value))) ∧
    (∀ p, prices a.symbol = some p → p.value = a.targetPrice →
      a ∈ evaluate prices alerts) := by
  constructor
  · rw [evaluate, List.mem_filter, ← qualifies_iff]
    simp [ha]
  · intro p hp heq
    rw [evaluate, List.mem_filter]
    refine ⟨ha, (qualifies_iff prices a).mpr ⟨p, hp, ?_⟩⟩
    cases hc : a.condition
    · exact Or.inr ⟨rfl, le_of_eq heq.symm⟩
    · exact Or.inl ⟨rfl, le_of_eq heq⟩

/-- C2 witness: in the §8 scenario (BTC at 29950, BELOW 30000) the alert is
returned. -/
theorem evaluate_trigger_rule_witness :
    btcAlert ∈ evaluate btcPrices [btcAlert] :=
  (evaluate_trigger_rule btcPrices [btcAlert] btcAlert (by decide)).1.mpr
    ⟨{ symbol := "BTC", value := 29950, timestamp := 0, provider := "redstone" },
     by decide, Or.inl ⟨rfl, by decide⟩⟩

/-- C3: an alert whose symbol has no sample is never in the triggered set,
evaluation raises no error (the function is total and returns a list), and
removing or inserting such an alert anywhere in the batch leaves the
evaluation of the other alerts unchanged. -/
theorem evaluate_missing_sample_skipped (prices : Prices) (a : Alert)
    (hnone : prices a.symbol = none) :
    (∀ alerts, a ∉ evaluate prices alerts) ∧
    (∀ l1 l2, evaluate prices (l1 ++ a :: l2) = evaluate prices (l1 ++ l2)) := by
  have hq : qualifies prices a = false := qualifies_of_no_sample prices a hnone
  constructor
  · intro alerts hmem
    rw [evaluate, List.mem_filter] at hmem
    rw [hq] at hmem
    exact Bool.false_ne_true hmem.2
  · intro l1 l2
    simp [evaluate, List.filter_append, List.filter_cons, hq]

/-- C3 witness: the ETH alert (no sample in `btcPrices`) is skipped and does
not perturb the BTC alert's evaluation. -/
theorem evaluate_missing_sample_skipped_witness :
    ethAlert ∉ evaluate btcPrices [ethAlert, btcAlert] :=
  (evaluate_missing_sample_skipped btcPrices ethAlert (by decide)).1
    [ethAlert, btcAlert]

/-- C6: `evaluate` is a pure function of its arguments and its result does
not depend on the order of the alert sequence: permuted inputs give
permuted outputs containing exactly the same alerts. -/
theorem evaluate_order_independent (prices : Prices) (l1 l2 : List Alert)
    (h : l1.Perm l2) :
    (evaluate prices l1).Perm (evaluate prices l2) ∧
    (∀ a, a ∈ evaluate prices l1 ↔ a ∈ evaluate prices l2) := by
  have hperm : (evaluate prices l1).Perm (evaluate prices l2) :=
    h.filter (qualifies prices)
  exact ⟨hperm, fun a => hperm.mem_iff⟩

/-- C6 witness: swapping the two alerts of a batch permutes (and here
preserves the membership of) the triggered set. -/
theorem evaluate_order_independent_witness :
    (evaluate btcPrices [btcAlert, ethAlert]).Perm
      (evaluate btcPrices [ethAlert, btcAlert]) :=
  (evaluate_order_independent btcPrices [btcAlert, ethAlert]
    [ethAlert, btcAlert] (List.Perm.swap ethAlert btcAlert [])).1

/-- C4: a tick whose price fetch ends in `FeedUnavailable` performs no
evaluation: the store is returned unchanged (no alert's status changes),
no notification record is produced, no error escapes (the tick is a total
function into the ordinary result type), and the next tick from the
resulting state behaves exactly as a tick from the original state. -/
theorem tick_feed_unavailable_skips (s : AlertStore) (deliver : Deliver)
    (now : Nat) :
    tick FeedResult.unavailable s deliver now = (s, []) ∧
    (∀ feed now2,
      tick feed (tick FeedResult.unavailable s deliver now).1 deliver now2 =
        tick feed s deliver now2) := by
  exact ⟨rfl, fun feed now2 => rfl⟩

/-- C9: the `useFetch` hook's `callData` ends with `loading == false` after
every completed call; a failed call (thrown fetch/parse or `ok == false`)
ends with `error == true` and `data` unchanged (still `null` when nothing
was ever fetched); a successful call stores the parsed body with
`error == false`. -/
theorem callData_state {D : Type} (st : FetchState D) :
    ((callData st FetchOutcome.thrown).error = true ∧
     (callData st FetchOutcome.thrown).loading = false ∧
     (callData st FetchOutcome.thrown).data = st.data) ∧
    ((callData st FetchOutcome.badStatus).error = true ∧
     (callData st FetchOutcome.badStatus).loading = false ∧
     (callData st FetchOutcome.badStatus).data = st.data) ∧
    (∀ body, (callData st (FetchOutcome.success body)).data = some body ∧
      (callData st (FetchOutcome.success body)).error = false ∧
      (callData st (FetchOutcome.success body)).loading = false) ∧
    ((callData (initialFetchState D) FetchOutcome.thrown).data = none ∧
     (callData (initialFetchState D) FetchOutcome.badStatus).data = none) := by
  exact ⟨⟨rfl, rfl, rfl⟩, ⟨rfl, rfl, rfl⟩, fun body => ⟨rfl, rfl, rfl⟩,
    rfl, rfl⟩

/-- C7: `send` returns exactly one `NotificationRecord` per channel of the
alert, in channel order; the i-th record's status is SENT or FAILED by that
channel's own delivery outcome alone (two capabilities agreeing on a
channel yield the same record there, so one channel's failure never
prevents another channel's attempt); and no channel is retried within the
call: the number of records for a channel equals that channel's
multiplicity in `alert.channels`. -/
theorem send_one_record_per_channel (deliver deliver2 : Deliver) (a : Alert)
    (ctx ctx2 : TriggerContext) (now : Nat) :
    (send deliver a ctx now).length = a.channels.length ∧
    (∀ i (hi : i < (send deliver a ctx now).length)
        (hc : i < a.channels.length),
      (send deliver a ctx now).get ⟨i, hi⟩ =
        { alertId := a.id, channel := a.channels.get ⟨i, hc⟩,
          status := if deliver (a.channels.get ⟨i, hc⟩) then NotifStatus.SENT
                    else NotifStatus.FAILED,
          sentAt := now }) ∧
    (∀ i (hi : i < (send deliver a ctx now).length)
        (hi2 : i < (send deliver2 a ctx2 now).length)
        (hc : i < a.channels.length),
      deliver (a.channels.get ⟨i, hc⟩) = deliver2 (a.channels.get ⟨i, hc⟩) →
      (send deliver a ctx now).get ⟨i, hi⟩ =
        (send deliver2 a ctx2 now).get ⟨i, hi2⟩) ∧
    (∀ ch, (send deliver a ctx now).countP (fun nr => nr.channel == ch) =
      a.channels.countP (fun c => c == ch)) := by
  refine ⟨by simp [send], ?_, ?_, ?_⟩
  · intro i hi hc
    simp [send]
  · intro i hi hi2 hc h
    rw [List.get_eq_getElem] at h
    simp [send, h]
  · intro ch
    simp [send, List.countP_map]
    rfl

/-- C7 witness: with the `websocket` channel failing and `email`
succeeding, the `websocket` record of the §8 alert is the same record an
all-failing capability would produce — its outcome is independent of the
other channel — and exactly one `email` record exists. -/
theorem send_one_record_per_channel_witness :
    (send failWebsocket btcTriggered btcContext 5).get ⟨0, by decide⟩ =
      (send (fun _ => false) btcTriggered btcContext 5).get ⟨0, by decide⟩ :=
  (send_one_record_per_channel failWebsocket (fun _ => false) btcTriggered
    btcContext btcContext 5).2.2.1 0 (by decide) (by decide) (by decide)
    (by decide)

/-- `lexLe` is total. -/
theorem lexLe_total : ∀ x y : List Char, (lexLe x y || lexLe y x) = true := by
  intro x
  induction x with
  | nil => intro y; simp [lexLe]
  | cons a as ih =>
    intro y
    cases y with
    | nil => simp [lexLe]
    | cons b bs =>
      by_cases hab : a = b
      · subst hab
        simpa [lexLe] using ih bs
      · rcases lt_trichotomy a b with h | h | h
        · simp [lexLe, hab, h]
        · exact absurd h hab
        · simp [lexLe, hab, Ne.symm hab, h]

/-- `lexLe` is transitive. -/
theorem lexLe_trans : ∀ x y z : List Char, lexLe x y = true →
    lexLe y z = true → lexLe x z = true
  | [], _, _, _, _ => by simp [lexLe]
  | a :: as, [], z, hxy, _ => by simp [lexLe] at hxy
  | a :: as, b :: bs, [], _, hyz => by simp [lexLe] at hyz
  | a :: as, b :: bs, c :: cs, hxy, hyz => by
    by_cases hab : a = b <;> by_cases hbc : b = c
    · subst hab
      subst hbc
      simp only [lexLe, if_pos rfl] at hxy hyz ⊢
      exact lexLe_trans as bs cs hxy hyz
    · subst hab
      simp only [lexLe, if_neg hbc] at hyz
      simp only [lexLe, if_neg hbc]
      exact hyz
    · subst hbc
      simp only [lexLe, if_neg hab] at hxy
      simp only [lexLe, if_neg hab]
      exact hxy
    · simp only [lexLe, if_neg hab] at hxy
      simp only [lexLe, if_neg hbc] at hyz
      have hac : a < c := lt_trans (of_decide_eq_true hxy)
        (of_decide_eq_true hyz)
      simp [lexLe, ne_of_lt hac, hac]

/-- The table comparator is transitive for every sort field and order. -/
theorem cmpLe_trans (sb : SortField) (so : SortOrder) :
    ∀ p q r, cmpLe sb so p q = true → cmpLe sb so q r = true →
      cmpLe sb so p r = true := by
  intro p q r hpq hqr
  cases sb <;> cases so <;> simp only [cmpLe, decide_eq_true_eq] at *
  · exact le_trans hpq hqr
  · exact le_trans hqr hpq
  · exact lexLe_trans _ _ _ hpq hqr
  · exact lexLe_trans _ _ _ hqr hpq

/-- The table comparator is total for every sort field and order. -/
theorem cmpLe_total (sb : SortField) (so : SortOrder) :
    ∀ p q, (cmpLe sb so p q || cmpLe sb so q p) = true := by
  intro p q
  cases sb <;> cases so <;>
    simp only [cmpLe, Bool.or_eq_true, decide_eq_true_eq]
  · exact le_total _ _
  · exact le_total _ _
  · simpa using lexLe_total _ _
  · simpa using lexLe_total _ _

/-- C8: the asset table is a pure function of the fetched object and the
filter settings.  An entry survives filtering iff its symbol or key
contains the search term case-insensitively and its value lies in the
inclusive price range (an absent bound restricts nothing); the sorted list
is a permutation of the filtered entries that is pairwise ordered by the
selected field and order; and the displayed page is the contiguous slice
of the key list starting at `(currentPage - 1) * itemsPerPage` with length
at most `itemsPerPage`. -/
theorem assets_table_correct (d : CryptoData) (f : FilterSettings)
    (page ipp : Nat) :
    (∀ k e, (k, e) ∈ sortedPairs d f ↔
      ((k, e) ∈ d ∧ matchesSearch k e f.searchTerm = true ∧
        matchesPrice e f.min f.max = true)) ∧
    (∀ k, k ∈ getFilteredAndSortedData d f ↔
      ∃ e, (k, e) ∈ d ∧ matchesSearch k e f.searchTerm = true ∧
        matchesPrice e f.min f.max = true) ∧
    (sortedPairs d f).Pairwise
      (fun p q => cmpLe f.sortBy f.sortOrder p q = true) ∧
    (sortedPairs d f).Perm (filteredPairs d f) ∧
    currentData (getFilteredAndSortedData d f) page ipp =
      ((getFilteredAndSortedData d f).drop ((page - 1) * ipp)).take ipp ∧
    (currentData (getFilteredAndSortedData d f) page ipp).length ≤ ipp := by
  have hmem : ∀ k e, (k, e) ∈ sortedPairs d f ↔
      ((k, e) ∈ d ∧ matchesSearch k e f.searchTerm = true ∧
        matchesPrice e f.min f.max = true) := by
    intro k e
    rw [sortedPairs, List.mem_mergeSort, filteredPairs, List.mem_filter]
    simp [and_assoc]
  refine ⟨hmem, ?_, ?_, ?_, ?_, ?_⟩
  · intro k
    rw [getFilteredAndSortedData, List.mem_map]
    constructor
    · rintro ⟨⟨k2, e⟩, hp, hk⟩
      subst hk
      exact ⟨e, (hmem _ e).mp hp⟩
    · rintro ⟨e, he⟩
      exact ⟨(k, e), (hmem k e).mpr he, rfl⟩
  · exact List.sorted_mergeSort (cmpLe_trans f.sortBy f.sortOrder)
      (cmpLe_total f.sortBy f.sortOrder) (filteredPairs d f)
  · exact List.mergeSort_perm (filteredPairs d f) _
  · simp [currentData, jsSlice, Nat.add_sub_cancel_left]
  · simp only [currentData, jsSlice, List.length_take]
    exact le_trans (Nat.min_le_left _ _)
      (le_of_eq (Nat.add_sub_cancel_left ((page - 1) * ipp) ipp))

/-- C10: the alert-request modal issues its POST only when the trimmed
description is strictly longer than 3 characters: for a trimmed length of
at most 3 (whitespace-only included) `sendMessage` returns at once with no
request issued and the response state untouched, and the submit button is
disabled whatever the submission flag; conversely any call that did issue
the request had a trimmed length above 3. -/
theorem sendMessage_requires_long_input (desc : List Char) :
    ((jsTrim desc).length ≤ 3 →
      (∀ st outcome, sendMessage desc st outcome = (false, st)) ∧
      (∀ b, notifyButtonDisabled desc b = true)) ∧
    (∀ st outcome, (sendMessage desc st outcome).1 = true →
      3 < (jsTrim desc).length) := by
  constructor
  · intro h
    have hg : sendMessageGuard desc = true := by
      simp [sendMessageGuard, h]
    constructor
    · intro st outcome
      simp [sendMessage, hg]
    · intro b
      simp [notifyButtonDisabled, h]
  · intro st outcome h
    by_contra hle
    push_neg at hle
    have hg : sendMessageGuard desc = true := by
      simp [sendMessageGuard, hle]
    simp [sendMessage, hg] at h

/-- C10 witness: a whitespace-only description produces no request and
leaves the response state idle. -/
theorem sendMessage_requires_long_input_witness :
    sendMessage shortDesc idleResponse RequestOutcome.ok =
      (false, idleResponse) :=
  ((sendMessage_requires_long_input shortDesc).1 (by decide)).1 idleResponse
    RequestOutcome.ok

end TokenTalk
